import Mathlib

/-!
# MagicTrackpad2PtpDevice: device bring-up, mode switch and power callbacks

A shallow embedding of `src/MagicTrackpad2PtpDevice/Device.c`.

* Framework calls (WDF, USB target) are the environment.  Each call the driver
  makes is appended to a trace of `Call` values, and the value the framework
  hands back is read from an explicit environment record.
* `NTSTATUS` is a signed 32-bit value, modelled as an `Int`;
  `NT_SUCCESS` is the test `status >= 0`.
* Handles (`WDFUSBDEVICE`, `WDFUSBPIPE`, ...) are natural numbers, `0` is `NULL`.
* Integer casts that the source writes are kept as explicit remainders.
-/

namespace MagicTrackpad2

/-! ## Status codes -/

/-- NTSTATUS values are signed 32-bit integers. -/
abbrev NTSTATUS := Int

/-- The test `NT_SUCCESS(Status)`, which is `((NTSTATUS)(Status)) >= 0`. -/
def NT_SUCCESS (status : NTSTATUS) : Bool := decide (0 ≤ status)

/-- The value 0x00000000. -/
def STATUS_SUCCESS : NTSTATUS := 0

/-- The value 0xC0000001 read as a signed 32-bit integer. -/
def STATUS_UNSUCCESSFUL : NTSTATUS := -1073741823

/-- The value 0xC0000184 read as a signed 32-bit integer. -/
def STATUS_INVALID_DEVICE_STATE : NTSTATUS := -1073741436

/-! ## Data model -/

/-- Modelled from the spec: the hardware profile record `struct BCM5974_CONFIG` is
declared in driver.h, which is not among the sources.  The fields are the ones
Device.c reads: the three product identifier variants and the six constants of
the mode-control feature block.  All are taken as non-negative integers. -/
structure BCM5974_CONFIG where
  ansi : Nat
  iso : Nat
  jis : Nat
  um_size : Nat
  um_req_val : Nat
  um_req_idx : Nat
  um_switch_idx : Nat
  um_switch_on : Nat
  um_switch_off : Nat
deriving DecidableEq, Repr

/-- The part of the USB device descriptor the driver reads. -/
structure USB_DEVICE_DESCRIPTOR where
  idVendor : Nat
  idProduct : Nat
deriving DecidableEq, Repr

/-! ## Profile lookup: `MagicTrackpad2GetConfig` -/

/-- The loop body test `cfg->ansi == id || cfg->iso == id || cfg->jis == id`. -/
def cfgMatches (id : Nat) (cfg : BCM5974_CONFIG) : Prop :=
  cfg.ansi = id ∨ cfg.iso = id ∨ cfg.jis = id

instance (id : Nat) (cfg : BCM5974_CONFIG) : Decidable (cfgMatches id cfg) := by
  unfold cfgMatches
  infer_instance

/-- The loop `for (cfg = Bcm5974ConfigTable; cfg->ansi; ++cfg)`, started at the
row `cfg` points at; the list is the rest of the array from there.  The loop
ends with `NULL` at the first row whose `ansi` is zero.  A pointer to a row is
modelled by the row it points at, `NULL` by `none`.  The empty list stands for
an array that carries no terminating row, where the C loop would read past
the array; the lookup is only meaningful on terminated tables. -/
def MagicTrackpad2GetConfig.scan (id : Nat) :
    List BCM5974_CONFIG → Option BCM5974_CONFIG
  | [] => none
  | cfg :: rest =>
    if cfg.ansi = 0 then none
    else if cfgMatches id cfg then some cfg
    else MagicTrackpad2GetConfig.scan id rest

/-- The function `MagicTrackpad2GetConfig(deviceInfo)` over the table
`Bcm5974ConfigTable` (defined in driver.h, hence an argument here).
`u16 id = deviceInfo.idProduct` copies a USHORT into a u16, which keeps
the value. -/
def MagicTrackpad2GetConfig (Bcm5974ConfigTable : List BCM5974_CONFIG)
    (deviceInfo : USB_DEVICE_DESCRIPTOR) : Option BCM5974_CONFIG :=
  let id := deviceInfo.idProduct
  MagicTrackpad2GetConfig.scan id Bcm5974ConfigTable

/-! ## Device context and framework objects -/

/-- The enumeration `WDF_USB_PIPE_TYPE` of the framework. -/
inductive WDF_USB_PIPE_TYPE where
  | WdfUsbPipeTypeInvalid
  | WdfUsbPipeTypeControl
  | WdfUsbPipeTypeIsochronous
  | WdfUsbPipeTypeBulk
  | WdfUsbPipeTypeInterrupt
deriving DecidableEq, Repr

/-- What `WdfUsbInterfaceGetConfiguredPipe` hands back for one index: the pipe
handle it returns and the `PipeType` it stores in `pipeInfo`. -/
structure ConfiguredPipe where
  pipe : Nat
  PipeType : WDF_USB_PIPE_TYPE
deriving DecidableEq, Repr

/-- What the framework reports for interface 0 of the device: the handle
returned by `WdfUsbTargetDeviceGetInterface` (0 is `NULL`) and its configured
pipes in index order. -/
structure USB_INTERFACE where
  handle : Nat
  pipes : List ConfiguredPipe
deriving DecidableEq, Repr

/-- Modelled from the spec: the per-device record `DEVICE_CONTEXT` is declared in
device.h, which is not among the sources.  The fields are the ones Device.c
reads and writes.  `DeviceInfo` points into the constant profile table and is
modelled by the row it points at (`none` is `NULL`). -/
structure DEVICE_CONTEXT where
  UsbDevice : Nat
  DeviceDescriptor : USB_DEVICE_DESCRIPTOR
  DeviceInfo : Option BCM5974_CONFIG
  UsbInterface : Nat
  InterruptPipe : Nat
  UsbDeviceTraits : Nat
  IsWellspringModeOn : Bool
deriving DecidableEq, Repr

/-- Direction of a control transfer (`BmRequestDeviceToHost`, `BmRequestHostToDevice`). -/
inductive Direction where
  | BmRequestDeviceToHost
  | BmRequestHostToDevice
deriving DecidableEq, Repr

/-- Modelled from the spec: the two request codes `BCM5974_WELLSPRING_MODE_READ_REQUEST_ID`
and `BCM5974_WELLSPRING_MODE_WRITE_REQUEST_ID` are defined in driver.h, which is
not among the sources; they are kept as two distinct symbols. -/
inductive RequestId where
  | BCM5974_WELLSPRING_MODE_READ_REQUEST_ID
  | BCM5974_WELLSPRING_MODE_WRITE_REQUEST_ID
deriving DecidableEq, Repr

/-- The arguments of one call of `WdfUsbTargetDeviceSendControlTransferSynchronously`:
the setup packet (recipient is always the interface and the request type is
always class, so these two are not recorded) and the memory descriptor, given by
the contents of the memory it points at (`buffer`, one number per byte) and the
length it declares (`bufferLength`). -/
structure ControlTransfer where
  UsbDevice : Nat
  direction : Direction
  request : RequestId
  value : Nat
  index : Nat
  buffer : List Nat
  bufferLength : Nat
deriving DecidableEq, Repr

/-- What one synchronous control transfer hands back: the returned status, the
count stored in `cbTransferred`, and the contents of the buffer memory after the
call. -/
structure TransferResult where
  status : NTSTATUS
  cbTransferred : Nat
  buffer : List Nat
deriving DecidableEq, Repr

/-- The USB target as a state machine: one synchronous control transfer maps the
device state and the request to a result and a new device state. -/
structure UsbTarget (σ : Type) where
  send : σ → ControlTransfer → TransferResult × σ

/-- One call into the framework, as recorded in the trace of a driver routine. -/
inductive Call where
  | WdfUsbTargetDeviceCreate
  | WdfUsbTargetDeviceGetDeviceDescriptor (UsbDevice : Nat)
  | WdfUsbTargetDeviceRetrieveInformation (UsbDevice : Nat)
  | WdfUsbTargetDeviceGetInterface (UsbDevice : Nat) (InterfaceIndex : Nat)
  | WdfUsbInterfaceGetNumConfiguredPipes (UsbInterface : Nat)
  | WdfUsbInterfaceGetConfiguredPipe (UsbInterface : Nat) (PipeIndex : Nat)
  | WdfUsbTargetPipeSetNoMaximumPacketSizeCheck (Pipe : Nat)
  | WdfDeviceAssignS0IdleSettings (IdleTimeout : Nat)
  | WdfDeviceAssignSxWakeSettings
  | ConfigContReaderForInterruptEndPoint
  | WdfIoTargetStart (Pipe : Nat)
  | WdfIoTargetStop (Pipe : Nat)
  | WdfMemoryCreate (BufferSize : Nat)
  | SendControlTransfer (req : ControlTransfer)
deriving DecidableEq, Repr

/-- Result of a driver routine: returned status, device context afterwards, and
the framework calls made, in order. -/
structure Outcome where
  status : NTSTATUS
  ctx : DEVICE_CONTEXT
  trace : List Call
deriving DecidableEq, Repr

/-- Result of the mode switch: as `Outcome`, with the device state afterwards. -/
structure ModeOutcome (σ : Type) where
  status : NTSTATUS
  ctx : DEVICE_CONTEXT
  device : σ
  trace : List Call

/-- What the framework answers during one run of bring-up.  Each of these calls
is made at most once in a run, so one value per call is enough. -/
structure Platform where
  Bcm5974ConfigTable : List BCM5974_CONFIG
  createStatus : NTSTATUS
  createdUsbDevice : Nat
  descriptor : USB_DEVICE_DESCRIPTOR
  retrieveStatus : NTSTATUS
  Traits : Nat
  interface0 : USB_INTERFACE
  idleStatus : NTSTATUS
  wakeStatus : NTSTATUS
  contReaderStatus : NTSTATUS
deriving DecidableEq, Repr

/-- The trait bit `WDF_USB_DEVICE_TRAIT_REMOTE_WAKE_CAPABLE` (0x00000002 in wdfusb.h). -/
def WDF_USB_DEVICE_TRAIT_REMOTE_WAKE_CAPABLE : Nat := 2

/-! ## Interrupt pipe selection: `SelectInterruptInterface` -/

/-- The loop `for (index = 0; index < numberConfiguredPipes; index++)`, started at
`index` with the pipes from that index on.  Each round fetches the pipe, turns
off the maximum packet size check, and on an interrupt pipe stores the handle
in the context and leaves the loop. -/
def SelectInterruptInterface.loop (usbInterface : Nat) :
    List ConfiguredPipe → Nat → DEVICE_CONTEXT → DEVICE_CONTEXT × List Call
  | [], _, ctx => (ctx, [])
  | p :: rest, index, ctx =>
    let calls := [Call.WdfUsbInterfaceGetConfiguredPipe usbInterface index,
                  Call.WdfUsbTargetPipeSetNoMaximumPacketSizeCheck p.pipe]
    if p.PipeType = WDF_USB_PIPE_TYPE.WdfUsbPipeTypeInterrupt then
      ({ ctx with InterruptPipe := p.pipe }, calls)
    else
      let r := SelectInterruptInterface.loop usbInterface rest (index + 1) ctx
      (r.1, calls ++ r.2)

/-- The routine `SelectInterruptInterface(Device)`.  `numberConfiguredPipes` is a
UCHAR, so the count is taken modulo 256 and the loop visits that many pipes. -/
def SelectInterruptInterface (interface0 : USB_INTERFACE) (ctx : DEVICE_CONTEXT) : Outcome :=
  let status := STATUS_SUCCESS
  let usbInterface := interface0.handle
  let t0 := [Call.WdfUsbTargetDeviceGetInterface ctx.UsbDevice 0]
  if usbInterface = 0 then
    ⟨STATUS_UNSUCCESSFUL, ctx, t0⟩
  else
    let numberConfiguredPipes := interface0.pipes.length % 256
    let t1 := t0 ++ [Call.WdfUsbInterfaceGetNumConfiguredPipes usbInterface]
    let ctx1 := { ctx with UsbInterface := usbInterface }
    let r := SelectInterruptInterface.loop ctx1.UsbInterface
              (interface0.pipes.take numberConfiguredPipes) 0 ctx1
    if r.1.InterruptPipe = 0 then
      ⟨STATUS_INVALID_DEVICE_STATE, r.1, t1 ++ r.2⟩
    else
      ⟨status, r.1, t1 ++ r.2⟩

/-- The pipe indices passed to `WdfUsbInterfaceGetConfiguredPipe` in a trace, in order. -/
def examinedPipes (tr : List Call) : List Nat :=
  tr.filterMap (fun c =>
    match c with
    | Call.WdfUsbInterfaceGetConfiguredPipe _ i => some i
    | _ => none)

/-! ## Power policy: `MagicTrackpad2PtpDeviceSetPowerPolicy` -/

/-- The routine `MagicTrackpad2PtpDeviceSetPowerPolicy(Device)`, given the statuses
the two framework calls return. -/
def MagicTrackpad2PtpDeviceSetPowerPolicy (idleStatus wakeStatus : NTSTATUS) :
    NTSTATUS × List Call :=
  let IdleTimeout := 10000
  let t1 := [Call.WdfDeviceAssignS0IdleSettings IdleTimeout]
  let status := idleStatus
  if !NT_SUCCESS status then
    (status, t1)
  else
    let t2 := t1 ++ [Call.WdfDeviceAssignSxWakeSettings]
    let status := wakeStatus
    if !NT_SUCCESS status then
      (status, t2)
    else
      (status, t2)

/-- The idle timeouts passed to `WdfDeviceAssignS0IdleSettings` in a trace, in order. -/
def idlePolicyCalls (tr : List Call) : List Nat :=
  tr.filterMap (fun c =>
    match c with
    | Call.WdfDeviceAssignS0IdleSettings t => some t
    | _ => none)

/-- Number of `WdfDeviceAssignSxWakeSettings` calls in a trace. -/
def wakePolicyCalls (tr : List Call) : Nat :=
  tr.count Call.WdfDeviceAssignSxWakeSettings

/-! ## Bring-up: `MagicTrackpad2PtpDeviceEvtDevicePrepareHardware` -/

/-- Lines 199-214: configure the continuous reader and return.  The routine
`MagicTrackpad2PtpDeviceConfigContReaderForInterruptEndPoint` lives in another
file; only the status it returns is used here. -/
def PrepareHardware.configReader (env : Platform) (ctx : DEVICE_CONTEXT)
    (tr : List Call) : Outcome :=
  let status := env.contReaderStatus
  let tr := tr ++ [Call.ConfigContReaderForInterruptEndPoint]
  if !NT_SUCCESS status then
    ⟨status, ctx, tr⟩
  else
    ⟨status, ctx, tr⟩

/-- Lines 183-214: the part of bring-up that follows the call of
`SelectInterruptInterface`, whose result is `sel`; `tr` holds the calls made so
far (those of `sel` included) and `waitWakeEnable` the value of that variable. -/
def PrepareHardware.afterSelect (env : Platform) (waitWakeEnable : Nat) (sel : Outcome)
    (tr : List Call) : Outcome :=
  if !NT_SUCCESS sel.status then
    ⟨sel.status, sel.ctx, tr⟩
  else if waitWakeEnable ≠ 0 then
    let pp := MagicTrackpad2PtpDeviceSetPowerPolicy env.idleStatus env.wakeStatus
    if !NT_SUCCESS pp.1 then
      ⟨pp.1, sel.ctx, tr ++ pp.2⟩
    else
      PrepareHardware.configReader env sel.ctx (tr ++ pp.2)
  else
    PrepareHardware.configReader env sel.ctx tr

/-- Lines 149-182: query the device traits, set `waitWakeEnable` (initially `FALSE`),
and select the interrupt pipe. -/
def PrepareHardware.afterLookup (env : Platform) (ctx : DEVICE_CONTEXT)
    (tr : List Call) : Outcome :=
  let status := env.retrieveStatus
  let tr := tr ++ [Call.WdfUsbTargetDeviceRetrieveInformation ctx.UsbDevice]
  let waitWakeEnable :=
    if NT_SUCCESS status then env.Traits &&& WDF_USB_DEVICE_TRAIT_REMOTE_WAKE_CAPABLE else 0
  let ctx := { ctx with UsbDeviceTraits := if NT_SUCCESS status then env.Traits else 0 }
  let sel := SelectInterruptInterface env.interface0 ctx
  PrepareHardware.afterSelect env waitWakeEnable sel (tr ++ sel.trace)

/-- Lines 138-147: read the descriptor and resolve the profile; `status` is the
value the variable holds on arrival.  When the lookup yields `NULL` the routine
executes `return status;`. -/
def PrepareHardware.afterCreate (env : Platform) (status : NTSTATUS)
    (ctx : DEVICE_CONTEXT) (tr : List Call) : Outcome :=
  let ctx := { ctx with DeviceDescriptor := env.descriptor }
  let tr := tr ++ [Call.WdfUsbTargetDeviceGetDeviceDescriptor ctx.UsbDevice]
  if NT_SUCCESS status then
    let ctx := { ctx with
      DeviceInfo := MagicTrackpad2GetConfig env.Bcm5974ConfigTable ctx.DeviceDescriptor }
    if ctx.DeviceInfo = none then
      ⟨status, ctx, tr⟩
    else
      PrepareHardware.afterLookup env ctx tr
  else
    PrepareHardware.afterLookup env ctx tr

/-- The callback `MagicTrackpad2PtpDeviceEvtDevicePrepareHardware`. -/
def MagicTrackpad2PtpDeviceEvtDevicePrepareHardware (env : Platform)
    (ctx : DEVICE_CONTEXT) : Outcome :=
  let status := STATUS_SUCCESS
  if ctx.UsbDevice = 0 then
    let status := env.createStatus
    let tr := [Call.WdfUsbTargetDeviceCreate]
    if !NT_SUCCESS status then
      ⟨status, ctx, tr⟩
    else
      PrepareHardware.afterCreate env status { ctx with UsbDevice := env.createdUsbDevice } tr
  else
    PrepareHardware.afterCreate env status ctx []

/-! ## Mode switch: `MagicTrackpad2PtpDeviceSetWellspringMode` -/

/-- The memory descriptor and setup packet of the read transfer (lines 243-250).
`sizeofUmSize` is the value of `sizeof(DeviceContext->DeviceInfo->um_size)`, the
storage size of the field `um_size`; it is fixed by the field's declared type
in driver.h, hence an argument here.  `(USHORT)` is the remainder modulo 65536. -/
def readRequest (sizeofUmSize : Nat) (DeviceContext : DEVICE_CONTEXT)
    (info : BCM5974_CONFIG) (buffer : List Nat) : ControlTransfer :=
  { UsbDevice := DeviceContext.UsbDevice
    direction := Direction.BmRequestDeviceToHost
    request := RequestId.BCM5974_WELLSPRING_MODE_READ_REQUEST_ID
    value := info.um_req_val % 65536
    index := info.um_req_idx % 65536
    buffer := buffer
    bufferLength := sizeofUmSize }

/-- The setup packet of the write transfer (lines 262-268) with the memory
descriptor of line 243, which the write reuses unchanged. -/
def writeRequest (sizeofUmSize : Nat) (DeviceContext : DEVICE_CONTEXT)
    (info : BCM5974_CONFIG) (buffer : List Nat) : ControlTransfer :=
  { UsbDevice := DeviceContext.UsbDevice
    direction := Direction.BmRequestHostToDevice
    request := RequestId.BCM5974_WELLSPRING_MODE_WRITE_REQUEST_ID
    value := info.um_req_val % 65536
    index := info.um_req_idx % 65536
    buffer := buffer
    bufferLength := sizeofUmSize }

/-- The byte stored at `um_switch_idx` (lines 259-260); `(unsigned char)` is the
remainder modulo 256. -/
def switchByte (info : BCM5974_CONFIG) (IsWellspringModeOn : Bool) : Nat :=
  if IsWellspringModeOn then info.um_switch_on % 256 else info.um_switch_off % 256

/-- The routine `MagicTrackpad2PtpDeviceSetWellspringMode(DeviceContext, IsWellspringModeOn)`.
`allocStatus` is what `WdfMemoryCreate` returns, `target` and `dev` are the USB
target and its state.  The result is `none` when `DeviceContext->DeviceInfo` is
`NULL`, which the C code dereferences.  The store `buffer[um_switch_idx] = ...`
is `List.set`, which leaves the buffer alone when the index lies outside it
(the C store would then write outside the allocation).  `(ULONG)um_size` is the
remainder modulo 2^32. -/
def MagicTrackpad2PtpDeviceSetWellspringMode {σ : Type} (sizeofUmSize : Nat)
    (target : UsbTarget σ) (allocStatus : NTSTATUS) (DeviceContext : DEVICE_CONTEXT)
    (IsWellspringModeOn : Bool) (dev : σ) : Option (ModeOutcome σ) :=
  match DeviceContext.DeviceInfo with
  | none => none
  | some info =>
    let t0 := [Call.WdfMemoryCreate info.um_size]
    let status := allocStatus
    if !NT_SUCCESS status then
      some ⟨status, DeviceContext, dev, t0⟩
    else
      let buffer := List.replicate info.um_size 0
      let rd := readRequest sizeofUmSize DeviceContext info buffer
      let r1 := target.send dev rd
      let status := r1.1.status
      let cbTransferred := r1.1.cbTransferred
      let buffer := r1.1.buffer
      let t1 := t0 ++ [Call.SendControlTransfer rd]
      if !NT_SUCCESS status || cbTransferred != info.um_size % 4294967296 then
        some ⟨status, DeviceContext, r1.2, t1⟩
      else
        let buffer := buffer.set info.um_switch_idx (switchByte info IsWellspringModeOn)
        let wr := writeRequest sizeofUmSize DeviceContext info buffer
        let r2 := target.send r1.2 wr
        let status := r2.1.status
        let t2 := t1 ++ [Call.SendControlTransfer wr]
        if !NT_SUCCESS status then
          some ⟨status, DeviceContext, r2.2, t2⟩
        else
          some ⟨status, { DeviceContext with IsWellspringModeOn := IsWellspringModeOn },
                r2.2, t2⟩

/-- The control transfers of a trace, in order. -/
def transfersOf (tr : List Call) : List ControlTransfer :=
  tr.filterMap (fun c =>
    match c with
    | Call.SendControlTransfer req => some req
    | _ => none)

/-- The write transfers of a trace, in order. -/
def writesOf (tr : List Call) : List ControlTransfer :=
  (transfersOf tr).filter (fun r => decide (r.direction = Direction.BmRequestHostToDevice))

/-- Follows the spec's words: a simulated device that holds one feature block.  Its
read-feature transfer succeeds and returns the whole block it holds, its
write-feature transfer succeeds and stores the buffer it is handed, so a read
returns what was last written. -/
def simulatedDevice : UsbTarget (List Nat) :=
  { send := fun block req =>
      match req.direction with
      | Direction.BmRequestDeviceToHost => (⟨STATUS_SUCCESS, block.length, block⟩, block)
      | Direction.BmRequestHostToDevice =>
          (⟨STATUS_SUCCESS, req.buffer.length, req.buffer⟩, req.buffer) }

/-- A device that answers every transfer with the same fixed result. -/
def constantDevice (r : TransferResult) : UsbTarget Unit :=
  { send := fun _ _ => (r, ()) }

/-! ## Power callbacks: `MagicTrackpad2PtpDeviceEvtDeviceD0Entry`, `...D0Exit` -/

/-- The callback `MagicTrackpad2PtpDeviceEvtDeviceD0Exit`. -/
def MagicTrackpad2PtpDeviceEvtDeviceD0Exit (ctx : DEVICE_CONTEXT) : Outcome :=
  ⟨STATUS_SUCCESS, ctx, [Call.WdfIoTargetStop ctx.InterruptPipe]⟩

/-- A profile with an 8-byte feature block. -/
def sampleProfile8 : BCM5974_CONFIG :=
  { ansi := 0x0223, iso := 0x0224, jis := 0x0225, um_size := 8, um_req_val := 0x300,
    um_req_idx := 0, um_switch_idx := 0, um_switch_on := 0x01, um_switch_off := 0x08 }

/-- A profile with a 2-byte feature block. -/
def sampleProfile2 : BCM5974_CONFIG :=
  { ansi := 0x0265, iso := 0x0265, jis := 0x0265, um_size := 2, um_req_val := 0x302,
    um_req_idx := 2, um_switch_idx := 1, um_switch_on := 0x01, um_switch_off := 0x00 }

/-- The all-zero row that ends a table. -/
def sentinelRow : BCM5974_CONFIG :=
  { ansi := 0, iso := 0, jis := 0, um_size := 0, um_req_val := 0, um_req_idx := 0,
    um_switch_idx := 0, um_switch_on := 0, um_switch_off := 0 }

/-- A two-row table followed by its terminator. -/
def sampleTable : List BCM5974_CONFIG := [sampleProfile8, sampleProfile2, sentinelRow]

/-- A freshly created, zero-filled device context. -/
def freshContext : DEVICE_CONTEXT :=
  { UsbDevice := 0, DeviceDescriptor := ⟨0, 0⟩, DeviceInfo := none, UsbInterface := 0,
    InterruptPipe := 0, UsbDeviceTraits := 0, IsWellspringModeOn := false }

/-- A context after a completed bring-up of the 8-byte profile. -/
def boundContext : DEVICE_CONTEXT :=
  { UsbDevice := 0x1000, DeviceDescriptor := ⟨0x05ac, 0x0223⟩, DeviceInfo := some sampleProfile8,
    UsbInterface := 0x2000, InterruptPipe := 0x3000, UsbDeviceTraits := 2,
    IsWellspringModeOn := false }

/-- Interface 0 with a bulk pipe followed by two interrupt pipes. -/
def sampleInterface : USB_INTERFACE :=
  { handle := 0x2000,
    pipes := [⟨0x3001, WDF_USB_PIPE_TYPE.WdfUsbPipeTypeBulk⟩,
              ⟨0x3002, WDF_USB_PIPE_TYPE.WdfUsbPipeTypeInterrupt⟩,
              ⟨0x3003, WDF_USB_PIPE_TYPE.WdfUsbPipeTypeInterrupt⟩] }

/-- Interface 0 with a single bulk pipe and no interrupt pipe. -/
def bulkOnlyInterface : USB_INTERFACE :=
  { handle := 0x2000, pipes := [⟨0x3001, WDF_USB_PIPE_TYPE.WdfUsbPipeTypeBulk⟩] }

/-- A platform on which every framework call succeeds, the device is remote-wake
capable, and the product identifier 0x0999 is absent from the table. -/
def unknownDevicePlatform : Platform :=
  { Bcm5974ConfigTable := sampleTable, createStatus := 0, createdUsbDevice := 0x1000,
    descriptor := ⟨0x05ac, 0x0999⟩, retrieveStatus := 0, Traits := 2,
    interface0 := sampleInterface, idleStatus := 0, wakeStatus := 0, contReaderStatus := 0 }

/-- A platform with a known, remote-wake capable device on which applying the
wake policy fails with `STATUS_UNSUCCESSFUL`. -/
def wakeFailPlatform : Platform :=
  { Bcm5974ConfigTable := sampleTable, createStatus := 0, createdUsbDevice := 0x1000,
    descriptor := ⟨0x05ac, 0x0265⟩, retrieveStatus := 0, Traits := 6,
    interface0 := sampleInterface, idleStatus := 0, wakeStatus := STATUS_UNSUCCESSFUL,
    contReaderStatus := 0 }

/-! ## Lemmas on the lookup -/

theorem scan_append_sentinel (id : Nat) (entries rest : List BCM5974_CONFIG)
    (sentinel : BCM5974_CONFIG) (hent : ∀ e ∈ entries, e.ansi ≠ 0)
    (hsent : sentinel.ansi = 0) :
    MagicTrackpad2GetConfig.scan id (entries ++ sentinel :: rest)
      = entries.find? (fun e => decide (cfgMatches id e)) := by
  induction entries with
  | nil => simp [MagicTrackpad2GetConfig.scan, hsent]
  | cons e es ih =>
    have he : e.ansi ≠ 0 := hent e (List.mem_cons_self e es)
    have hes : ∀ x ∈ es, x.ansi ≠ 0 := fun x hx => hent x (List.mem_cons_of_mem e hx)
    by_cases hm : cfgMatches id e
    · simp [MagicTrackpad2GetConfig.scan, he, hm]
    · simp [MagicTrackpad2GetConfig.scan, he, hm, ih hes]

theorem find_none_of_no_match (id : Nat) (entries : List BCM5974_CONFIG)
    (h : ∀ e ∈ entries, ¬ cfgMatches id e) :
    entries.find? (fun e => decide (cfgMatches id e)) = none := by
  induction entries with
  | nil => rfl
  | cons e es ih =>
    have he : ¬ cfgMatches id e := h e (List.mem_cons_self e es)
    have hes : ∀ x ∈ es, ¬ cfgMatches id x := fun x hx => h x (List.mem_cons_of_mem e hx)
    simp [List.find?, he, ih hes]

theorem find_first_of_match (id : Nat) (entries : List BCM5974_CONFIG)
    (h : ∃ e ∈ entries, cfgMatches id e) :
    ∃ pre c post, entries = pre ++ c :: post ∧ (∀ x ∈ pre, ¬ cfgMatches id x) ∧
      cfgMatches id c ∧ entries.find? (fun e => decide (cfgMatches id e)) = some c := by
  induction entries with
  | nil => simp at h
  | cons e es ih =>
    by_cases hm : cfgMatches id e
    · exact ⟨[], e, es, by simp, by simp, hm, by simp [List.find?, hm]⟩
    · have h2 : ∃ x ∈ es, cfgMatches id x := by
        obtain ⟨x, hx, hxm⟩ := h
        rcases List.mem_cons.mp hx with rfl | hx2
        · exact absurd hxm hm
        · exact ⟨x, hx2, hxm⟩
      obtain ⟨pre, c, post, heq, hpre, hc, hfind⟩ := ih h2
      refine ⟨e :: pre, c, post, by simp [heq], ?_, hc, by simp [List.find?, hm, hfind]⟩
      intro x hx
      rcases List.mem_cons.mp hx with rfl | hx2
      · exact hm
      · exact hpre x hx2

/-! ## Claims -/

/-- C1: on a table made of rows with a non-zero `ansi` followed by a terminating
row whose `ansi` is zero, `MagicTrackpad2GetConfig` returns `NULL` when the
product identifier equals none of the `ansi`, `iso`, `jis` fields of any row
before the terminator, and otherwise returns the first such row in table order
(every row before it does not match). -/
theorem C1_getConfig_first_match (entries rest : List BCM5974_CONFIG)
    (sentinel : BCM5974_CONFIG) (deviceInfo : USB_DEVICE_DESCRIPTOR)
    (hent : ∀ e ∈ entries, e.ansi ≠ 0) (hsent : sentinel.ansi = 0) :
    ((∀ e ∈ entries, ¬ cfgMatches deviceInfo.idProduct e) →
        MagicTrackpad2GetConfig (entries ++ sentinel :: rest) deviceInfo = none) ∧
    ((∃ e ∈ entries, cfgMatches deviceInfo.idProduct e) →
        ∃ pre c post, entries = pre ++ c :: post ∧
          (∀ x ∈ pre, ¬ cfgMatches deviceInfo.idProduct x) ∧
          cfgMatches deviceInfo.idProduct c ∧
          MagicTrackpad2GetConfig (entries ++ sentinel :: rest) deviceInfo = some c) := by
  unfold MagicTrackpad2GetConfig
  rw [scan_append_sentinel deviceInfo.idProduct entries rest sentinel hent hsent]
  refine ⟨fun h => find_none_of_no_match _ _ h, fun h => ?_⟩
  exact find_first_of_match _ _ h

/-- C1 at a concrete table: two rows and a terminator; product identifier 0x0999 is
in no row and yields `NULL`, product identifier 0x0265 yields the second row,
the first one that carries it. -/
theorem C1_getConfig_first_match_witness :
    MagicTrackpad2GetConfig ([sampleProfile8, sampleProfile2] ++ sentinelRow :: [])
      ⟨0x05ac, 0x0999⟩ = none ∧
    ∃ pre c post, [sampleProfile8, sampleProfile2] = pre ++ c :: post ∧
      (∀ x ∈ pre, ¬ cfgMatches 0x0265 x) ∧ cfgMatches 0x0265 c ∧
      MagicTrackpad2GetConfig ([sampleProfile8, sampleProfile2] ++ sentinelRow :: [])
        ⟨0x05ac, 0x0265⟩ = some c :=
  ⟨(C1_getConfig_first_match [sampleProfile8, sampleProfile2] [] sentinelRow ⟨0x05ac, 0x0999⟩
      (by decide) rfl).1 (by decide),
   (C1_getConfig_first_match [sampleProfile8, sampleProfile2] [] sentinelRow ⟨0x05ac, 0x0265⟩
      (by decide) rfl).2 ⟨sampleProfile2, by decide, by decide⟩⟩


/-- C2: when the product identifier matches no row of the table and the USB target
exists (it was created earlier, or its creation succeeds now), bring-up executes
`return status;` with the success status it holds at that point: the returned
status passes `NT_SUCCESS`, although the profile pointer is `NULL`. -/
theorem C2_unresolved_profile_returns_success (env : Platform) (ctx : DEVICE_CONTEXT)
    (hnone : MagicTrackpad2GetConfig env.Bcm5974ConfigTable env.descriptor = none)
    (hcreate : ctx.UsbDevice ≠ 0 ∨ NT_SUCCESS env.createStatus = true) :
    NT_SUCCESS (MagicTrackpad2PtpDeviceEvtDevicePrepareHardware env ctx).status = true ∧
    (MagicTrackpad2PtpDeviceEvtDevicePrepareHardware env ctx).ctx.DeviceInfo = none := by
  unfold MagicTrackpad2PtpDeviceEvtDevicePrepareHardware
  by_cases hdev : ctx.UsbDevice = 0
  · have hc : NT_SUCCESS env.createStatus = true := by
      rcases hcreate with h | h
      · exact absurd hdev h
      · exact h
    simp [hdev, hc, PrepareHardware.afterCreate, hnone]
  · simp [hdev, PrepareHardware.afterCreate, hnone, NT_SUCCESS, STATUS_SUCCESS]

/-- C2 at a concrete device: product identifier 0x0999 is in no row of the sample
table, every framework call succeeds, and bring-up returns `STATUS_SUCCESS`. -/
theorem C2_unresolved_profile_returns_success_witness :
    MagicTrackpad2GetConfig unknownDevicePlatform.Bcm5974ConfigTable
        unknownDevicePlatform.descriptor = none ∧
    (MagicTrackpad2PtpDeviceEvtDevicePrepareHardware unknownDevicePlatform freshContext).status
        = STATUS_SUCCESS ∧
    (NT_SUCCESS (MagicTrackpad2PtpDeviceEvtDevicePrepareHardware unknownDevicePlatform
        freshContext).status = true ∧
      (MagicTrackpad2PtpDeviceEvtDevicePrepareHardware unknownDevicePlatform
        freshContext).ctx.DeviceInfo = none) :=
  ⟨by decide, by decide,
    C2_unresolved_profile_returns_success unknownDevicePlatform freshContext (by decide)
      (Or.inr (by decide))⟩

/-! ## The four ways through the mode switch -/

theorem setWellspringMode_alloc_failed {σ : Type} (sizeofUmSize : Nat)
    (target : UsbTarget σ) (allocStatus : NTSTATUS) (ctx : DEVICE_CONTEXT)
    (IsWellspringModeOn : Bool) (dev : σ) (info : BCM5974_CONFIG)
    (hinfo : ctx.DeviceInfo = some info) (halloc : NT_SUCCESS allocStatus = false) :
    MagicTrackpad2PtpDeviceSetWellspringMode sizeofUmSize target allocStatus ctx
        IsWellspringModeOn dev
      = some ⟨allocStatus, ctx, dev, [Call.WdfMemoryCreate info.um_size]⟩ := by
  simp only [MagicTrackpad2PtpDeviceSetWellspringMode, hinfo]
  simp [halloc]

theorem setWellspringMode_read_rejected {σ : Type} (sizeofUmSize : Nat)
    (target : UsbTarget σ) (allocStatus : NTSTATUS) (ctx : DEVICE_CONTEXT)
    (IsWellspringModeOn : Bool) (dev : σ) (info : BCM5974_CONFIG)
    (hinfo : ctx.DeviceInfo = some info) (halloc : NT_SUCCESS allocStatus = true)
    (hread : NT_SUCCESS (target.send dev (readRequest sizeofUmSize ctx info
        (List.replicate info.um_size 0))).1.status = false ∨
      (target.send dev (readRequest sizeofUmSize ctx info
        (List.replicate info.um_size 0))).1.cbTransferred ≠ info.um_size % 4294967296) :
    MagicTrackpad2PtpDeviceSetWellspringMode sizeofUmSize target allocStatus ctx
        IsWellspringModeOn dev
      = some ⟨(target.send dev (readRequest sizeofUmSize ctx info
                (List.replicate info.um_size 0))).1.status, ctx,
              (target.send dev (readRequest sizeofUmSize ctx info
                (List.replicate info.um_size 0))).2,
              [Call.WdfMemoryCreate info.um_size,
               Call.SendControlTransfer (readRequest sizeofUmSize ctx info
                (List.replicate info.um_size 0))]⟩ := by
  simp only [MagicTrackpad2PtpDeviceSetWellspringMode, hinfo]
  rcases hread with h | h
  · simp [halloc, h]
  · simp [halloc, h]

theorem setWellspringMode_read_accepted {σ : Type} (sizeofUmSize : Nat)
    (target : UsbTarget σ) (allocStatus : NTSTATUS) (ctx : DEVICE_CONTEXT)
    (IsWellspringModeOn : Bool) (dev : σ) (info : BCM5974_CONFIG)
    (hinfo : ctx.DeviceInfo = some info) (halloc : NT_SUCCESS allocStatus = true)
    (hstatus : NT_SUCCESS (target.send dev (readRequest sizeofUmSize ctx info
        (List.replicate info.um_size 0))).1.status = true)
    (hcount : (target.send dev (readRequest sizeofUmSize ctx info
        (List.replicate info.um_size 0))).1.cbTransferred = info.um_size % 4294967296) :
    MagicTrackpad2PtpDeviceSetWellspringMode sizeofUmSize target allocStatus ctx
        IsWellspringModeOn dev
      = some ⟨(target.send (target.send dev (readRequest sizeofUmSize ctx info
                  (List.replicate info.um_size 0))).2
                (writeRequest sizeofUmSize ctx info
                  ((target.send dev (readRequest sizeofUmSize ctx info
                    (List.replicate info.um_size 0))).1.buffer.set info.um_switch_idx
                      (switchByte info IsWellspringModeOn)))).1.status,
              if NT_SUCCESS (target.send (target.send dev (readRequest sizeofUmSize ctx info
                    (List.replicate info.um_size 0))).2
                  (writeRequest sizeofUmSize ctx info
                    ((target.send dev (readRequest sizeofUmSize ctx info
                      (List.replicate info.um_size 0))).1.buffer.set info.um_switch_idx
                        (switchByte info IsWellspringModeOn)))).1.status = true
              then { ctx with IsWellspringModeOn := IsWellspringModeOn } else ctx,
              (target.send (target.send dev (readRequest sizeofUmSize ctx info
                  (List.replicate info.um_size 0))).2
                (writeRequest sizeofUmSize ctx info
                  ((target.send dev (readRequest sizeofUmSize ctx info
                    (List.replicate info.um_size 0))).1.buffer.set info.um_switch_idx
                      (switchByte info IsWellspringModeOn)))).2,
              [Call.WdfMemoryCreate info.um_size,
               Call.SendControlTransfer (readRequest sizeofUmSize ctx info
                (List.replicate info.um_size 0)),
               Call.SendControlTransfer (writeRequest sizeofUmSize ctx info
                  ((target.send dev (readRequest sizeofUmSize ctx info
                    (List.replicate info.um_size 0))).1.buffer.set info.um_switch_idx
                      (switchByte info IsWellspringModeOn)))]⟩ := by
  simp only [MagicTrackpad2PtpDeviceSetWellspringMode, hinfo]
  by_cases hw : NT_SUCCESS (target.send (target.send dev (readRequest sizeofUmSize ctx info
        (List.replicate info.um_size 0))).2
      (writeRequest sizeofUmSize ctx info
        ((target.send dev (readRequest sizeofUmSize ctx info
          (List.replicate info.um_size 0))).1.buffer.set info.um_switch_idx
            (switchByte info IsWellspringModeOn)))).1.status = true
  · simp [halloc, hstatus, hcount, hw]
  · simp [halloc, hstatus, hcount, hw]

theorem writesOf_read_only (sizeofUmSize : Nat) (ctx : DEVICE_CONTEXT)
    (info : BCM5974_CONFIG) (buffer : List Nat) :
    writesOf [Call.WdfMemoryCreate info.um_size,
      Call.SendControlTransfer (readRequest sizeofUmSize ctx info buffer)] = [] := by
  simp [writesOf, transfersOf, readRequest]

/-- C3: when the buffer allocation succeeds and the read transfer comes back with a
byte count different from `(ULONG)um_size`, the routine jumps to `cleanup` and
returns the status of the read transfer unchanged, issues no write transfer, and
leaves the context as it was.  So a short read that the transfer itself reported
as successful is returned as success. -/
theorem C3_count_mismatch_returns_read_status {σ : Type} (sizeofUmSize : Nat)
    (target : UsbTarget σ) (allocStatus : NTSTATUS) (ctx : DEVICE_CONTEXT)
    (IsWellspringModeOn : Bool) (dev : σ) (info : BCM5974_CONFIG)
    (hinfo : ctx.DeviceInfo = some info) (halloc : NT_SUCCESS allocStatus = true)
    (hcount : (target.send dev (readRequest sizeofUmSize ctx info
        (List.replicate info.um_size 0))).1.cbTransferred ≠ info.um_size % 4294967296) :
    ∃ out, MagicTrackpad2PtpDeviceSetWellspringMode sizeofUmSize target allocStatus ctx
        IsWellspringModeOn dev = some out ∧
      out.status = (target.send dev (readRequest sizeofUmSize ctx info
        (List.replicate info.um_size 0))).1.status ∧
      writesOf out.trace = [] ∧ out.ctx = ctx := by
  refine ⟨_, setWellspringMode_read_rejected sizeofUmSize target allocStatus ctx
    IsWellspringModeOn dev info hinfo halloc (Or.inr hcount), rfl, ?_, rfl⟩
  exact writesOf_read_only sizeofUmSize ctx info _

/-- C3 at a concrete device: the profile declares 8 bytes, the read transfer reports
`STATUS_SUCCESS` with 4 bytes transferred, and the routine returns
`STATUS_SUCCESS` without a write transfer. -/
theorem C3_count_mismatch_returns_read_status_witness :
    ∃ out, MagicTrackpad2PtpDeviceSetWellspringMode 4
        (constantDevice ⟨STATUS_SUCCESS, 4, [1, 2, 3, 4, 0, 0, 0, 0]⟩) STATUS_SUCCESS
        boundContext true () = some out ∧
      out.status = STATUS_SUCCESS ∧ NT_SUCCESS out.status = true ∧
      writesOf out.trace = [] ∧ out.ctx = boundContext := by
  obtain ⟨out, h1, h2, h3, h4⟩ := C3_count_mismatch_returns_read_status 4
    (constantDevice ⟨STATUS_SUCCESS, 4, [1, 2, 3, 4, 0, 0, 0, 0]⟩) STATUS_SUCCESS
    boundContext true () sampleProfile8 rfl (by decide) (by decide)
  refine ⟨out, h1, ?_, ?_, h3, h4⟩
  · rw [h2]; rfl
  · rw [h2]; rfl

/-- C4: with a resolved profile whose `um_size` fits a ULONG, the routine returns,
and afterwards the recorded flag `IsWellspringModeOn` equals the requested mode
when the allocation succeeded, the read transfer succeeded with exactly
`um_size` bytes and the write transfer succeeded; in every other case the flag
keeps the value it had before the call. -/
theorem C4_mode_flag_recorded_only_on_success {σ : Type} (sizeofUmSize : Nat)
    (target : UsbTarget σ) (allocStatus : NTSTATUS) (ctx : DEVICE_CONTEXT)
    (IsWellspringModeOn : Bool) (dev : σ) (info : BCM5974_CONFIG)
    (hinfo : ctx.DeviceInfo = some info) (hsize : info.um_size < 4294967296) :
    ∃ out, MagicTrackpad2PtpDeviceSetWellspringMode sizeofUmSize target allocStatus ctx
        IsWellspringModeOn dev = some out ∧
      ((NT_SUCCESS allocStatus = true ∧
        NT_SUCCESS (target.send dev (readRequest sizeofUmSize ctx info
          (List.replicate info.um_size 0))).1.status = true ∧
        (target.send dev (readRequest sizeofUmSize ctx info
          (List.replicate info.um_size 0))).1.cbTransferred = info.um_size ∧
        NT_SUCCESS (target.send
          (target.send dev (readRequest sizeofUmSize ctx info
            (List.replicate info.um_size 0))).2
          (writeRequest sizeofUmSize ctx info
            ((target.send dev (readRequest sizeofUmSize ctx info
              (List.replicate info.um_size 0))).1.buffer.set info.um_switch_idx
                (switchByte info IsWellspringModeOn)))).1.status = true) →
        out.ctx.IsWellspringModeOn = IsWellspringModeOn) ∧
      (¬ (NT_SUCCESS allocStatus = true ∧
        NT_SUCCESS (target.send dev (readRequest sizeofUmSize ctx info
          (List.replicate info.um_size 0))).1.status = true ∧
        (target.send dev (readRequest sizeofUmSize ctx info
          (List.replicate info.um_size 0))).1.cbTransferred = info.um_size ∧
        NT_SUCCESS (target.send
          (target.send dev (readRequest sizeofUmSize ctx info
            (List.replicate info.um_size 0))).2
          (writeRequest sizeofUmSize ctx info
            ((target.send dev (readRequest sizeofUmSize ctx info
              (List.replicate info.um_size 0))).1.buffer.set info.um_switch_idx
                (switchByte info IsWellspringModeOn)))).1.status = true) →
        out.ctx.IsWellspringModeOn = ctx.IsWellspringModeOn) := by
  have hmod : info.um_size % 4294967296 = info.um_size := Nat.mod_eq_of_lt hsize
  by_cases ha : NT_SUCCESS allocStatus = true
  · by_cases hr : NT_SUCCESS (target.send dev (readRequest sizeofUmSize ctx info
        (List.replicate info.um_size 0))).1.status = true
    · by_cases hc : (target.send dev (readRequest sizeofUmSize ctx info
          (List.replicate info.um_size 0))).1.cbTransferred = info.um_size
      · refine ⟨_, setWellspringMode_read_accepted sizeofUmSize target allocStatus ctx
          IsWellspringModeOn dev info hinfo ha hr (by rw [hmod]; exact hc), ?_, ?_⟩
        · intro h
          simp [h.2.2.2]
        · intro h
          have hw : ¬ NT_SUCCESS (target.send
              (target.send dev (readRequest sizeofUmSize ctx info
                (List.replicate info.um_size 0))).2
              (writeRequest sizeofUmSize ctx info
                ((target.send dev (readRequest sizeofUmSize ctx info
                  (List.replicate info.um_size 0))).1.buffer.set info.um_switch_idx
                    (switchByte info IsWellspringModeOn)))).1.status = true :=
            fun hw => h ⟨ha, hr, hc, hw⟩
          simp [hw]
      · refine ⟨_, setWellspringMode_read_rejected sizeofUmSize target allocStatus ctx
          IsWellspringModeOn dev info hinfo ha (Or.inr (by rw [hmod]; exact hc)), ?_, ?_⟩
        · intro h
          exact absurd h.2.2.1 hc
        · intro _
          rfl
    · refine ⟨_, setWellspringMode_read_rejected sizeofUmSize target allocStatus ctx
        IsWellspringModeOn dev info hinfo ha (Or.inl (by simpa using hr)), ?_, ?_⟩
      · intro h
        exact absurd h.2.1 hr
      · intro _
        rfl
  · refine ⟨_, setWellspringMode_alloc_failed sizeofUmSize target allocStatus ctx
      IsWellspringModeOn dev info hinfo (by simpa using ha), ?_, ?_⟩
    · intro h
      exact absurd h.1 ha
    · intro _
      rfl

/-- C4 at a concrete device: the simulated device holding eight bytes answers both
transfers with success, and the flag of the context becomes `true`. -/
theorem C4_mode_flag_recorded_only_on_success_witness :
    ∃ out, MagicTrackpad2PtpDeviceSetWellspringMode 4 simulatedDevice STATUS_SUCCESS
        boundContext true [9, 2, 3, 4, 5, 6, 7, 8] = some out ∧
      out.ctx.IsWellspringModeOn = true := by
  obtain ⟨out, h1, h2, _⟩ := C4_mode_flag_recorded_only_on_success 4 simulatedDevice
    STATUS_SUCCESS boundContext true [9, 2, 3, 4, 5, 6, 7, 8] sampleProfile8 rfl (by decide)
  exact ⟨out, h1, h2 (by decide)⟩

/-! ## The simulated device -/

/-- C10: with a resolved profile, every control transfer the routine issues declares
a payload length of `sizeof(um_size)`, the storage size of the field, whatever
the value of `um_size`; and when the allocation succeeds the first transfer is
the read over a zero-filled buffer of `um_size` bytes.  The declared length
therefore differs from `um_size` for every profile whose `um_size` is not the
storage size of its own field. -/
theorem C10_declared_length_is_field_size {σ : Type} (sizeofUmSize : Nat)
    (target : UsbTarget σ) (allocStatus : NTSTATUS) (ctx : DEVICE_CONTEXT)
    (IsWellspringModeOn : Bool) (dev : σ) (info : BCM5974_CONFIG)
    (hinfo : ctx.DeviceInfo = some info) :
    ∃ out, MagicTrackpad2PtpDeviceSetWellspringMode sizeofUmSize target allocStatus ctx
        IsWellspringModeOn dev = some out ∧
      (∀ req ∈ transfersOf out.trace, req.bufferLength = sizeofUmSize) ∧
      (NT_SUCCESS allocStatus = true →
        (transfersOf out.trace).head? = some (readRequest sizeofUmSize ctx info
          (List.replicate info.um_size 0)) ∧
        (List.replicate info.um_size 0).length = info.um_size) := by
  by_cases ha : NT_SUCCESS allocStatus = true
  · by_cases hr : NT_SUCCESS (target.send dev (readRequest sizeofUmSize ctx info
        (List.replicate info.um_size 0))).1.status = true ∧
        (target.send dev (readRequest sizeofUmSize ctx info
          (List.replicate info.um_size 0))).1.cbTransferred = info.um_size % 4294967296
    · refine ⟨_, setWellspringMode_read_accepted sizeofUmSize target allocStatus ctx
        IsWellspringModeOn dev info hinfo ha hr.1 hr.2, ?_, ?_⟩
      · intro req hreq
        simp only [transfersOf, List.filterMap_cons, List.filterMap_nil, List.mem_cons,
          List.mem_singleton] at hreq
        rcases hreq with h | h | h
        · rw [h]; rfl
        · rw [h]; rfl
        · simp at h
      · intro _
        exact ⟨rfl, List.length_replicate _ _⟩
    · have hr2 : NT_SUCCESS (target.send dev (readRequest sizeofUmSize ctx info
          (List.replicate info.um_size 0))).1.status = false ∨
          (target.send dev (readRequest sizeofUmSize ctx info
            (List.replicate info.um_size 0))).1.cbTransferred ≠ info.um_size % 4294967296 := by
        by_cases hs : NT_SUCCESS (target.send dev (readRequest sizeofUmSize ctx info
          (List.replicate info.um_size 0))).1.status = true
        · exact Or.inr (fun hc => hr ⟨hs, hc⟩)
        · exact Or.inl (by simpa using hs)
      refine ⟨_, setWellspringMode_read_rejected sizeofUmSize target allocStatus ctx
        IsWellspringModeOn dev info hinfo ha hr2, ?_, ?_⟩
      · intro req hreq
        simp only [transfersOf, List.filterMap_cons, List.filterMap_nil, List.mem_cons,
          List.mem_singleton] at hreq
        rcases hreq with h | h
        · rw [h]; rfl
        · simp at h
      · intro _
        exact ⟨rfl, List.length_replicate _ _⟩
  · refine ⟨_, setWellspringMode_alloc_failed sizeofUmSize target allocStatus ctx
      IsWellspringModeOn dev info hinfo (by simpa using ha), ?_, ?_⟩
    · intro req hreq
      simp [transfersOf] at hreq
    · intro h
      exact absurd h ha

/-- C10 at a concrete profile: `um_size` is 8 and the field is stored in 4 bytes; the
transfers are issued with a declared length of 4. -/
theorem C10_declared_length_is_field_size_witness :
    sampleProfile8.um_size = 8 ∧
    ∃ out, MagicTrackpad2PtpDeviceSetWellspringMode 4 simulatedDevice STATUS_SUCCESS
        boundContext true [9, 2, 3, 4, 5, 6, 7, 8] = some out ∧
      (∀ req ∈ transfersOf out.trace, req.bufferLength = 4) ∧
      (NT_SUCCESS STATUS_SUCCESS = true →
        (transfersOf out.trace).head? = some (readRequest 4 boundContext sampleProfile8
          (List.replicate sampleProfile8.um_size 0)) ∧
        (List.replicate sampleProfile8.um_size 0).length = sampleProfile8.um_size) :=
  ⟨rfl, C10_declared_length_is_field_size 4 simulatedDevice STATUS_SUCCESS boundContext true
    [9, 2, 3, 4, 5, 6, 7, 8] sampleProfile8 rfl⟩

theorem exists_first_interrupt (pipes : List ConfiguredPipe)
    (h : ∃ p ∈ pipes, p.PipeType = WDF_USB_PIPE_TYPE.WdfUsbPipeTypeInterrupt) :
    ∃ pre p post, pipes = pre ++ p :: post ∧
      (∀ q ∈ pre, q.PipeType ≠ WDF_USB_PIPE_TYPE.WdfUsbPipeTypeInterrupt) ∧
      p.PipeType = WDF_USB_PIPE_TYPE.WdfUsbPipeTypeInterrupt := by
  induction pipes with
  | nil => simp at h
  | cons a as ih =>
    by_cases ha : a.PipeType = WDF_USB_PIPE_TYPE.WdfUsbPipeTypeInterrupt
    · exact ⟨[], a, as, by simp, by simp, ha⟩
    · have h2 : ∃ p ∈ as, p.PipeType = WDF_USB_PIPE_TYPE.WdfUsbPipeTypeInterrupt := by
        obtain ⟨p, hp, hpt⟩ := h
        rcases List.mem_cons.mp hp with rfl | hp2
        · exact absurd hpt ha
        · exact ⟨p, hp2, hpt⟩
      obtain ⟨pre, p, post, heq, hpre, hp⟩ := ih h2
      refine ⟨a :: pre, p, post, by simp [heq], ?_, hp⟩
      intro q hq
      rcases List.mem_cons.mp hq with rfl | hq2
      · exact ha
      · exact hpre q hq2

theorem loop_stops_at_first_interrupt (usbInterface : Nat) (pre : List ConfiguredPipe)
    (p : ConfiguredPipe) (post : List ConfiguredPipe) (index : Nat) (ctx : DEVICE_CONTEXT)
    (hpre : ∀ q ∈ pre, q.PipeType ≠ WDF_USB_PIPE_TYPE.WdfUsbPipeTypeInterrupt)
    (hp : p.PipeType = WDF_USB_PIPE_TYPE.WdfUsbPipeTypeInterrupt) :
    (SelectInterruptInterface.loop usbInterface (pre ++ p :: post) index ctx).1
        = { ctx with InterruptPipe := p.pipe } ∧
    examinedPipes (SelectInterruptInterface.loop usbInterface (pre ++ p :: post) index ctx).2
        = List.range' index (pre.length + 1) := by
  induction pre generalizing index with
  | nil =>
    simp [SelectInterruptInterface.loop, hp, examinedPipes]
  | cons a as ih =>
    have ha : a.PipeType ≠ WDF_USB_PIPE_TYPE.WdfUsbPipeTypeInterrupt :=
      hpre a (List.mem_cons_self a as)
    have has : ∀ q ∈ as, q.PipeType ≠ WDF_USB_PIPE_TYPE.WdfUsbPipeTypeInterrupt :=
      fun q hq => hpre q (List.mem_cons_of_mem a hq)
    obtain ⟨h1, h2⟩ := ih (index + 1) has
    have hstep : SelectInterruptInterface.loop usbInterface ((a :: as) ++ p :: post) index ctx
        = ((SelectInterruptInterface.loop usbInterface (as ++ p :: post) (index + 1) ctx).1,
           [Call.WdfUsbInterfaceGetConfiguredPipe usbInterface index,
            Call.WdfUsbTargetPipeSetNoMaximumPacketSizeCheck a.pipe] ++
           (SelectInterruptInterface.loop usbInterface (as ++ p :: post) (index + 1) ctx).2) := by
      simp [SelectInterruptInterface.loop, ha]
    rw [hstep]
    constructor
    · exact h1
    · have hex : examinedPipes ([Call.WdfUsbInterfaceGetConfiguredPipe usbInterface index,
            Call.WdfUsbTargetPipeSetNoMaximumPacketSizeCheck a.pipe] ++
           (SelectInterruptInterface.loop usbInterface (as ++ p :: post) (index + 1) ctx).2)
          = index :: examinedPipes
              (SelectInterruptInterface.loop usbInterface (as ++ p :: post) (index + 1) ctx).2 := by
        simp [examinedPipes]
      rw [hex, h2, List.length_cons, List.range'_succ index (as.length + 1) 1]

theorem loop_without_interrupt (usbInterface : Nat) (pipes : List ConfiguredPipe)
    (index : Nat) (ctx : DEVICE_CONTEXT)
    (hnone : ∀ q ∈ pipes, q.PipeType ≠ WDF_USB_PIPE_TYPE.WdfUsbPipeTypeInterrupt) :
    (SelectInterruptInterface.loop usbInterface pipes index ctx).1 = ctx := by
  induction pipes generalizing index with
  | nil => rfl
  | cons a as ih =>
    have ha : a.PipeType ≠ WDF_USB_PIPE_TYPE.WdfUsbPipeTypeInterrupt :=
      hnone a (List.mem_cons_self a as)
    have has : ∀ q ∈ as, q.PipeType ≠ WDF_USB_PIPE_TYPE.WdfUsbPipeTypeInterrupt :=
      fun q hq => hnone q (List.mem_cons_of_mem a hq)
    simp only [SelectInterruptInterface.loop, ha, if_false]
    exact ih (index + 1) has

theorem loop_makes_no_policy_call (usbInterface : Nat) (pipes : List ConfiguredPipe)
    (index : Nat) (ctx : DEVICE_CONTEXT) :
    idlePolicyCalls (SelectInterruptInterface.loop usbInterface pipes index ctx).2 = [] ∧
    wakePolicyCalls (SelectInterruptInterface.loop usbInterface pipes index ctx).2 = 0 := by
  induction pipes generalizing index with
  | nil => simp [SelectInterruptInterface.loop, idlePolicyCalls, wakePolicyCalls]
  | cons a as ih =>
    obtain ⟨h1, h2⟩ := ih (index + 1)
    by_cases ha : a.PipeType = WDF_USB_PIPE_TYPE.WdfUsbPipeTypeInterrupt
    · simp [SelectInterruptInterface.loop, ha, idlePolicyCalls, wakePolicyCalls]
    · simp only [idlePolicyCalls, wakePolicyCalls] at h1 h2
      simp [SelectInterruptInterface.loop, ha, idlePolicyCalls, wakePolicyCalls, h1, h2]

theorem select_makes_no_policy_call (interface0 : USB_INTERFACE) (ctx : DEVICE_CONTEXT) :
    idlePolicyCalls (SelectInterruptInterface interface0 ctx).trace = [] ∧
    wakePolicyCalls (SelectInterruptInterface interface0 ctx).trace = 0 := by
  obtain ⟨h1, h2⟩ := loop_makes_no_policy_call interface0.handle
    (interface0.pipes.take (interface0.pipes.length % 256)) 0
    { ctx with UsbInterface := interface0.handle }
  simp only [idlePolicyCalls, wakePolicyCalls] at h1 h2
  unfold SelectInterruptInterface
  by_cases hh : interface0.handle = 0
  · simp [hh, idlePolicyCalls, wakePolicyCalls]
  · by_cases hp : (SelectInterruptInterface.loop interface0.handle
        (interface0.pipes.take (interface0.pipes.length % 256)) 0
        { ctx with UsbInterface := interface0.handle }).1.InterruptPipe = 0
    · simp [hh, hp, idlePolicyCalls, wakePolicyCalls, h1, h2]
    · simp [hh, hp, idlePolicyCalls, wakePolicyCalls, h1, h2]

/-- C6: when interface 0 exists, reports at most 255 configured pipes with non-`NULL`
handles, and at least one of them is of interrupt type, `SelectInterruptInterface`
returns `STATUS_SUCCESS`, stores in `InterruptPipe` the handle of the interrupt
pipe with the smallest index (every pipe before it is of another type), and
the pipe indices it fetched are exactly 0 up to that index. -/
theorem C6_first_interrupt_pipe_bound (interface0 : USB_INTERFACE) (ctx : DEVICE_CONTEXT)
    (hhandle : interface0.handle ≠ 0) (hlen : interface0.pipes.length < 256)
    (hnonnull : ∀ q ∈ interface0.pipes, q.pipe ≠ 0)
    (hex : ∃ q ∈ interface0.pipes,
      q.PipeType = WDF_USB_PIPE_TYPE.WdfUsbPipeTypeInterrupt) :
    ∃ pre p post, interface0.pipes = pre ++ p :: post ∧
      (∀ q ∈ pre, q.PipeType ≠ WDF_USB_PIPE_TYPE.WdfUsbPipeTypeInterrupt) ∧
      p.PipeType = WDF_USB_PIPE_TYPE.WdfUsbPipeTypeInterrupt ∧
      (SelectInterruptInterface interface0 ctx).status = STATUS_SUCCESS ∧
      (SelectInterruptInterface interface0 ctx).ctx.InterruptPipe = p.pipe ∧
      examinedPipes (SelectInterruptInterface interface0 ctx).trace
        = List.range (pre.length + 1) := by
  obtain ⟨pre, p, post, heq, hpre, hp⟩ := exists_first_interrupt interface0.pipes hex
  have hpnz : p.pipe ≠ 0 := hnonnull p (by rw [heq]; simp)
  have htake : interface0.pipes.take (interface0.pipes.length % 256) = pre ++ p :: post := by
    rw [Nat.mod_eq_of_lt hlen, List.take_length, heq]
  obtain ⟨h1, h2⟩ := loop_stops_at_first_interrupt interface0.handle pre p post 0
    { ctx with UsbInterface := interface0.handle } hpre hp
  simp only [examinedPipes] at h2
  refine ⟨pre, p, post, heq, hpre, hp, ?_, ?_, ?_⟩
  · simp [SelectInterruptInterface, hhandle, htake, h1, hpnz]
  · simp [SelectInterruptInterface, hhandle, htake, h1, hpnz]
  · simp [SelectInterruptInterface, hhandle, htake, h1, hpnz, examinedPipes, h2,
      List.range_eq_range']

/-- C6 at a concrete interface: a bulk pipe followed by two interrupt pipes; the
first interrupt pipe (index 1) is bound and index 2 is never fetched. -/
theorem C6_first_interrupt_pipe_bound_witness :
    (SelectInterruptInterface sampleInterface freshContext).ctx.InterruptPipe = 0x3002 ∧
    examinedPipes (SelectInterruptInterface sampleInterface freshContext).trace = [0, 1] ∧
    ∃ pre p post, sampleInterface.pipes = pre ++ p :: post ∧
      (∀ q ∈ pre, q.PipeType ≠ WDF_USB_PIPE_TYPE.WdfUsbPipeTypeInterrupt) ∧
      p.PipeType = WDF_USB_PIPE_TYPE.WdfUsbPipeTypeInterrupt ∧
      (SelectInterruptInterface sampleInterface freshContext).status = STATUS_SUCCESS ∧
      (SelectInterruptInterface sampleInterface freshContext).ctx.InterruptPipe = p.pipe ∧
      examinedPipes (SelectInterruptInterface sampleInterface freshContext).trace
        = List.range (pre.length + 1) :=
  ⟨by decide, by decide,
    C6_first_interrupt_pipe_bound sampleInterface freshContext (by decide) (by decide)
      (by decide) ⟨⟨0x3002, WDF_USB_PIPE_TYPE.WdfUsbPipeTypeInterrupt⟩, by decide, rfl⟩⟩

/-- C7: when interface 0 exists and none of its configured pipes is of interrupt
type, the routine tests the context field `InterruptPipe`, which the scan has
left as it was before the call.  With `InterruptPipe` equal to `NULL` before the
call it fails with `STATUS_INVALID_DEVICE_STATE`; with a non-`NULL` handle left
in the context (from an earlier bring-up) it returns `STATUS_SUCCESS` and keeps
that handle. -/
theorem C7_no_interrupt_pipe_tests_context_field (interface0 : USB_INTERFACE)
    (ctx : DEVICE_CONTEXT) (hhandle : interface0.handle ≠ 0)
    (hnone : ∀ q ∈ interface0.pipes,
      q.PipeType ≠ WDF_USB_PIPE_TYPE.WdfUsbPipeTypeInterrupt) :
    (ctx.InterruptPipe = 0 →
      (SelectInterruptInterface interface0 ctx).status = STATUS_INVALID_DEVICE_STATE) ∧
    (ctx.InterruptPipe ≠ 0 →
      (SelectInterruptInterface interface0 ctx).status = STATUS_SUCCESS ∧
      (SelectInterruptInterface interface0 ctx).ctx.InterruptPipe = ctx.InterruptPipe) := by
  have hsub : ∀ q ∈ interface0.pipes.take (interface0.pipes.length % 256),
      q.PipeType ≠ WDF_USB_PIPE_TYPE.WdfUsbPipeTypeInterrupt :=
    fun q hq => hnone q (List.mem_of_mem_take hq)
  have hloop := loop_without_interrupt interface0.handle
    (interface0.pipes.take (interface0.pipes.length % 256)) 0
    { ctx with UsbInterface := interface0.handle } hsub
  unfold SelectInterruptInterface
  simp only [hhandle, if_false, hloop]
  constructor
  · intro hz
    simp [hz]
  · intro hnz
    simp [hnz]

/-- C7 at a concrete input: a context that still holds pipe handle 0x3000 and an
interface with a single bulk pipe; the routine returns `STATUS_SUCCESS`. -/
theorem C7_no_interrupt_pipe_tests_context_field_witness :
    boundContext.InterruptPipe = 0x3000 ∧
    (SelectInterruptInterface bulkOnlyInterface boundContext).status = STATUS_SUCCESS ∧
    (SelectInterruptInterface bulkOnlyInterface boundContext).ctx.InterruptPipe = 0x3000 ∧
    (SelectInterruptInterface bulkOnlyInterface freshContext).status
      = STATUS_INVALID_DEVICE_STATE :=
  ⟨rfl,
    ((C7_no_interrupt_pipe_tests_context_field bulkOnlyInterface boundContext (by decide)
      (by decide)).2 (by decide)).1,
    ((C7_no_interrupt_pipe_tests_context_field bulkOnlyInterface boundContext (by decide)
      (by decide)).2 (by decide)).2,
    (C7_no_interrupt_pipe_tests_context_field bulkOnlyInterface freshContext (by decide)
      (by decide)).1 rfl⟩

/-! ## Power policy calls during bring-up -/

theorem idlePolicyCalls_append (a b : List Call) :
    idlePolicyCalls (a ++ b) = idlePolicyCalls a ++ idlePolicyCalls b := by
  simp [idlePolicyCalls]

theorem wakePolicyCalls_append (a b : List Call) :
    wakePolicyCalls (a ++ b) = wakePolicyCalls a + wakePolicyCalls b := by
  simp [wakePolicyCalls]

theorem afterSelect_policy (env : Platform) (waitWakeEnable : Nat) (sel : Outcome)
    (tr : List Call) (h1 : idlePolicyCalls tr = []) (h2 : wakePolicyCalls tr = 0) :
    (idlePolicyCalls (PrepareHardware.afterSelect env waitWakeEnable sel tr).trace = [] ∨
      idlePolicyCalls (PrepareHardware.afterSelect env waitWakeEnable sel tr).trace
        = [10000]) ∧
    wakePolicyCalls (PrepareHardware.afterSelect env waitWakeEnable sel tr).trace ≤ 1 ∧
    ((idlePolicyCalls (PrepareHardware.afterSelect env waitWakeEnable sel tr).trace ≠ [] ∨
        wakePolicyCalls (PrepareHardware.afterSelect env waitWakeEnable sel tr).trace ≠ 0) →
      waitWakeEnable ≠ 0) ∧
    (idlePolicyCalls (PrepareHardware.afterSelect env waitWakeEnable sel tr).trace ≠ [] →
      NT_SUCCESS env.idleStatus = false →
      (PrepareHardware.afterSelect env waitWakeEnable sel tr).status = env.idleStatus) ∧
    (wakePolicyCalls (PrepareHardware.afterSelect env waitWakeEnable sel tr).trace ≠ 0 →
      NT_SUCCESS env.wakeStatus = false →
      (PrepareHardware.afterSelect env waitWakeEnable sel tr).status = env.wakeStatus) := by
  simp only [idlePolicyCalls, wakePolicyCalls] at h1 h2
  unfold PrepareHardware.afterSelect PrepareHardware.configReader
    MagicTrackpad2PtpDeviceSetPowerPolicy
  by_cases hsel : NT_SUCCESS sel.status = true
  · by_cases hw : waitWakeEnable = 0
    · simp [hsel, hw, idlePolicyCalls, wakePolicyCalls, h1, h2]
    · by_cases hidle : NT_SUCCESS env.idleStatus = true
      · by_cases hwake : NT_SUCCESS env.wakeStatus = true
        · simp [hsel, hw, hidle, hwake, idlePolicyCalls, wakePolicyCalls, h1, h2]
        · simp [hsel, hw, hidle, hwake, idlePolicyCalls, wakePolicyCalls, h1, h2]
      · simp [hsel, hw, hidle, idlePolicyCalls, wakePolicyCalls, h1, h2]
  · simp [hsel, idlePolicyCalls, wakePolicyCalls, h1, h2]

theorem afterLookup_policy (env : Platform) (ctx : DEVICE_CONTEXT) (tr : List Call)
    (h1 : idlePolicyCalls tr = []) (h2 : wakePolicyCalls tr = 0) :
    (idlePolicyCalls (PrepareHardware.afterLookup env ctx tr).trace = [] ∨
      idlePolicyCalls (PrepareHardware.afterLookup env ctx tr).trace = [10000]) ∧
    wakePolicyCalls (PrepareHardware.afterLookup env ctx tr).trace ≤ 1 ∧
    ((idlePolicyCalls (PrepareHardware.afterLookup env ctx tr).trace ≠ [] ∨
        wakePolicyCalls (PrepareHardware.afterLookup env ctx tr).trace ≠ 0) →
      NT_SUCCESS env.retrieveStatus = true ∧
      env.Traits &&& WDF_USB_DEVICE_TRAIT_REMOTE_WAKE_CAPABLE ≠ 0) ∧
    (idlePolicyCalls (PrepareHardware.afterLookup env ctx tr).trace ≠ [] →
      NT_SUCCESS env.idleStatus = false →
      (PrepareHardware.afterLookup env ctx tr).status = env.idleStatus) ∧
    (wakePolicyCalls (PrepareHardware.afterLookup env ctx tr).trace ≠ 0 →
      NT_SUCCESS env.wakeStatus = false →
      (PrepareHardware.afterLookup env ctx tr).status = env.wakeStatus) := by
  unfold PrepareHardware.afterLookup
  have hs := select_makes_no_policy_call env.interface0
    { ctx with UsbDeviceTraits := if NT_SUCCESS env.retrieveStatus = true then env.Traits else 0 }
  have ht1 : idlePolicyCalls (tr ++ [Call.WdfUsbTargetDeviceRetrieveInformation ctx.UsbDevice] ++
      (SelectInterruptInterface env.interface0
        { ctx with UsbDeviceTraits :=
            if NT_SUCCESS env.retrieveStatus = true then env.Traits else 0 }).trace) = [] := by
    rw [idlePolicyCalls_append, idlePolicyCalls_append, h1, hs.1]
    rfl
  have ht2 : wakePolicyCalls (tr ++ [Call.WdfUsbTargetDeviceRetrieveInformation ctx.UsbDevice] ++
      (SelectInterruptInterface env.interface0
        { ctx with UsbDeviceTraits :=
            if NT_SUCCESS env.retrieveStatus = true then env.Traits else 0 }).trace) = 0 := by
    rw [wakePolicyCalls_append, wakePolicyCalls_append, h2, hs.2]
    rfl
  obtain ⟨a1, a2, a3, a4, a5⟩ := afterSelect_policy env
    (if NT_SUCCESS env.retrieveStatus = true then
      env.Traits &&& WDF_USB_DEVICE_TRAIT_REMOTE_WAKE_CAPABLE else 0)
    (SelectInterruptInterface env.interface0
      { ctx with UsbDeviceTraits :=
          if NT_SUCCESS env.retrieveStatus = true then env.Traits else 0 })
    (tr ++ [Call.WdfUsbTargetDeviceRetrieveInformation ctx.UsbDevice] ++
      (SelectInterruptInterface env.interface0
        { ctx with UsbDeviceTraits :=
            if NT_SUCCESS env.retrieveStatus = true then env.Traits else 0 }).trace) ht1 ht2
  refine ⟨a1, a2, ?_, a4, a5⟩
  intro h
  have hw := a3 h
  by_cases hret : NT_SUCCESS env.retrieveStatus = true
  · rw [if_pos hret] at hw
    exact ⟨hret, hw⟩
  · rw [if_neg hret] at hw
    exact absurd rfl hw

theorem afterCreate_policy (env : Platform) (status : NTSTATUS) (ctx : DEVICE_CONTEXT)
    (tr : List Call) (h1 : idlePolicyCalls tr = []) (h2 : wakePolicyCalls tr = 0) :
    (idlePolicyCalls (PrepareHardware.afterCreate env status ctx tr).trace = [] ∨
      idlePolicyCalls (PrepareHardware.afterCreate env status ctx tr).trace = [10000]) ∧
    wakePolicyCalls (PrepareHardware.afterCreate env status ctx tr).trace ≤ 1 ∧
    ((idlePolicyCalls (PrepareHardware.afterCreate env status ctx tr).trace ≠ [] ∨
        wakePolicyCalls (PrepareHardware.afterCreate env status ctx tr).trace ≠ 0) →
      NT_SUCCESS env.retrieveStatus = true ∧
      env.Traits &&& WDF_USB_DEVICE_TRAIT_REMOTE_WAKE_CAPABLE ≠ 0) ∧
    (idlePolicyCalls (PrepareHardware.afterCreate env status ctx tr).trace ≠ [] →
      NT_SUCCESS env.idleStatus = false →
      (PrepareHardware.afterCreate env status ctx tr).status = env.idleStatus) ∧
    (wakePolicyCalls (PrepareHardware.afterCreate env status ctx tr).trace ≠ 0 →
      NT_SUCCESS env.wakeStatus = false →
      (PrepareHardware.afterCreate env status ctx tr).status = env.wakeStatus) := by
  have ht1 : idlePolicyCalls
      (tr ++ [Call.WdfUsbTargetDeviceGetDeviceDescriptor ctx.UsbDevice]) = [] := by
    rw [idlePolicyCalls_append, h1]
    rfl
  have ht2 : wakePolicyCalls
      (tr ++ [Call.WdfUsbTargetDeviceGetDeviceDescriptor ctx.UsbDevice]) = 0 := by
    rw [wakePolicyCalls_append, h2]
    rfl
  unfold PrepareHardware.afterCreate
  by_cases hst : NT_SUCCESS status = true
  · by_cases hnone : MagicTrackpad2GetConfig env.Bcm5974ConfigTable env.descriptor = none
    · simp [hst, hnone, ht1, ht2]
    · simp only [hst, if_true, hnone, if_false]
      exact afterLookup_policy env _ _ ht1 ht2
  · simp only [hst, if_false, Bool.false_eq_true]
    exact afterLookup_policy env _ _ ht1 ht2

/-- C9: in every run of bring-up the idle policy is applied at most once and then
with a timeout of 10000 ms, the wake policy is applied at most once, either is
applied only when the trait query succeeded and the queried traits have the
remote-wake-capable bit set, and when an application of the idle policy or of
the wake policy fails, bring-up returns the status of that failure. -/
theorem C9_power_policy_applied_once_when_wake_capable (env : Platform)
    (ctx : DEVICE_CONTEXT) :
    (idlePolicyCalls (MagicTrackpad2PtpDeviceEvtDevicePrepareHardware env ctx).trace = [] ∨
      idlePolicyCalls (MagicTrackpad2PtpDeviceEvtDevicePrepareHardware env ctx).trace
        = [10000]) ∧
    wakePolicyCalls (MagicTrackpad2PtpDeviceEvtDevicePrepareHardware env ctx).trace ≤ 1 ∧
    ((idlePolicyCalls (MagicTrackpad2PtpDeviceEvtDevicePrepareHardware env ctx).trace ≠ [] ∨
        wakePolicyCalls (MagicTrackpad2PtpDeviceEvtDevicePrepareHardware env ctx).trace ≠ 0) →
      NT_SUCCESS env.retrieveStatus = true ∧
      env.Traits &&& WDF_USB_DEVICE_TRAIT_REMOTE_WAKE_CAPABLE ≠ 0) ∧
    (idlePolicyCalls (MagicTrackpad2PtpDeviceEvtDevicePrepareHardware env ctx).trace ≠ [] →
      NT_SUCCESS env.idleStatus = false →
      (MagicTrackpad2PtpDeviceEvtDevicePrepareHardware env ctx).status = env.idleStatus) ∧
    (wakePolicyCalls (MagicTrackpad2PtpDeviceEvtDevicePrepareHardware env ctx).trace ≠ 0 →
      NT_SUCCESS env.wakeStatus = false →
      (MagicTrackpad2PtpDeviceEvtDevicePrepareHardware env ctx).status = env.wakeStatus) := by
  unfold MagicTrackpad2PtpDeviceEvtDevicePrepareHardware
  by_cases hdev : ctx.UsbDevice = 0
  · by_cases hc : NT_SUCCESS env.createStatus = true
    · simp only [hdev, if_true, hc, Bool.not_true, Bool.false_eq_true, if_false]
      exact afterCreate_policy env _ _ _ rfl rfl
    · simp [hdev, hc, idlePolicyCalls, wakePolicyCalls]
  · simp only [hdev, if_false]
    exact afterCreate_policy env _ _ _ rfl rfl

/-- C9 at a concrete run: a known, remote-wake capable device on which the wake
policy is rejected; both policies were applied once and bring-up returns the
rejection status. -/
theorem C9_power_policy_applied_once_when_wake_capable_witness :
    idlePolicyCalls
      (MagicTrackpad2PtpDeviceEvtDevicePrepareHardware wakeFailPlatform freshContext).trace
        = [10000] ∧
    wakePolicyCalls
      (MagicTrackpad2PtpDeviceEvtDevicePrepareHardware wakeFailPlatform freshContext).trace
        = 1 ∧
    (MagicTrackpad2PtpDeviceEvtDevicePrepareHardware wakeFailPlatform freshContext).status
      = STATUS_UNSUCCESSFUL ∧
    NT_SUCCESS wakeFailPlatform.retrieveStatus = true ∧
    wakeFailPlatform.Traits &&& WDF_USB_DEVICE_TRAIT_REMOTE_WAKE_CAPABLE ≠ 0 :=
  ⟨by decide, by decide,
    (C9_power_policy_applied_once_when_wake_capable wakeFailPlatform freshContext).2.2.2.2
      (by decide) (by decide),
    (C9_power_policy_applied_once_when_wake_capable wakeFailPlatform freshContext).2.2.1
      (Or.inl (by decide))⟩

end MagicTrackpad2
